import Mathlib

/-!
Verification of the Token-Safety-Check analysis core.

Shallow embedding of the three analysis units of the repository:
  - `ScoringEngine` (src/Scoring-Engine.ts): weighted aggregation of two
    risk records into a safety verdict;
  - `HoneypotChecker` (src/analyzers/honeypot-checker.ts): normalizer for
    the reputation-source (honeypot.is) API response;
  - `OnChainAnalyzer` (src/analyzers/honeypot-checker.ts, second unit):
    normalizer for the chain source (Web3 RPC reads);
  - the pre-dispatch chain-support check of the request handler
    (src/index.ts, POST /api/v1/analyze).

Modelling conventions:
  - JavaScript numbers are modelled as `ℚ` (exact decimal arithmetic);
    `Math.round` is `jsRound` below (round half toward +infinity).
  - A JS value that may be `null`/`undefined`/`NaN` is an `Option`;
    the safe-coercion helpers (`safeInt`, `safeFloat`, `parseTax`,
    `parseNumber`) treat `none` exactly as the source treats
    null/undefined/NaN.
  - JS truthiness tests on these fields are modelled explicitly:
    a `boolean | null` field is truthy iff it is `some true`; a string
    field is truthy iff non-empty.
  - Warning / recommendation strings are represented by one constructor
    per `push` site of the source, carrying the interpolated numeric
    payloads; string formatting (`toFixed`) is presentation only and is
    not modelled.
  - Logging, `raw_data` passthrough, `sources_checked` and the
    pausable/mintable debug metadata are not consulted by any claim and
    are omitted.
-/

/-- JavaScript `Math.round`: rounds half toward positive infinity. -/
def jsRound (q : ℚ) : ℤ := ⌊q + 1/2⌋

/-- JS truthiness of an optional string field (`undefined`/`""` are falsy). -/
def strTruthy : Option String → Bool
  | none => false
  | some s => !s.isEmpty

/-- JS truthiness of a `boolean | null` field. -/
def boolTruthy : Option Bool → Bool
  | some true => true
  | _ => false

namespace TokenSafety

/-- The six per-call validation flags of the chain source
(`OnChainCheckResult.checks`). -/
structure Checks where
  has_name : Bool
  has_symbol : Bool
  valid_decimals : Bool
  has_supply : Bool
  has_balance_of : Bool
  reasonable_code_size : Bool
  deriving DecidableEq, Repr

/-- Reputation-source risk record (`HoneypotCheckResult`). `Option` fields
are `null`able in the source; `error` is the optional failure message. -/
structure HoneypotData where
  source : String
  risk_level : String
  risk_score : Option ℚ
  is_honeypot : Option Bool
  buy_tax : Option ℚ
  sell_tax : Option ℚ
  transfer_tax : Option ℚ
  buy_gas_used : Option ℚ
  sell_gas_used : Option ℚ
  holder_count : Option ℚ
  top_10_holders_percent : Option ℚ
  contract_verified : Option Bool
  is_proxy : Option Bool
  honeypot_reason : String
  liquidity_usd : Option ℚ
  liquidity_locked : Bool
  error : Option String
  deriving DecidableEq, Repr

/-- Chain-source risk record (`OnChainCheckResult`). -/
structure OnchainData where
  source : String
  is_contract : Option Bool
  has_code : Option Bool
  code_size : Option ℚ
  is_erc20 : Option Bool
  name : Option String
  symbol : Option String
  decimals : Option ℚ
  total_supply : Option ℚ
  risk_score : Option ℚ
  checks : Option Checks
  error : Option String
  deriving DecidableEq, Repr

/-- Categorical risk level of the final verdict. -/
inductive RiskLevel where
  | SAFE | LOW_RISK | MEDIUM_RISK | HIGH_RISK | CRITICAL
  deriving DecidableEq, Repr

/-- One constructor per `warnings.push` site of
`ScoringEngine.generateWarnings`, carrying the interpolated numbers. -/
inductive Warning where
  | honeypotDetected
  | honeypotReason (reason : String)
  | sellTaxCritical (t : ℚ)
  | sellTaxVeryHigh (t : ℚ)
  | sellTaxHigh (t : ℚ)
  | sellTaxModerate (t : ℚ)
  | buyTaxVeryHigh (t : ℚ)
  | buyTaxHigh (t : ℚ)
  | buyTaxModerate (t : ℚ)
  | centralizationExtreme (p : ℚ)
  | centralizationVeryHigh (p : ℚ)
  | centralizationHigh (p : ℚ)
  | contractNotVerified
  | proxyContract
  | notAContract
  | notErc20
  | smallCode
  | largeCode
  deriving DecidableEq, Repr

/-- One constructor per `recommendations.push` site of
`ScoringEngine.generateRecommendations` (the `n` payloads carry the
interpolated `warnings.length`). -/
inductive Advice where
  | doNotInteractHoneypot
  | doNotBuyReportScam
  | generallySafe
  | appearsLegitimate
  | alwaysVerifyExplorer
  | noteMinorWarnings (n : ℕ)
  | exerciseCaution
  | smallTestTransaction
  | checkRecentTransactions
  | verifyLiquidityVolume
  | reviewWarningsCarefully (n : ℕ)
  | highRiskExtremeCaution
  | onlyIfUnderstandRisks
  | neverInvestMoreThanAfford
  | researchMultipleSources
  | significantWarningsFound (n : ℕ)
  | veryHighRiskAvoid
  | multipleRedFlags
  | highProbabilityScam
  | criticalWarningsFound (n : ℕ)
  | considerSaferAlternatives
  | criticalDoNotInteract
  | severeIssuesDetected
  | almostCertainlyScam
  | criticalIssuesFound (n : ℕ)
  | protectYourFunds
  deriving DecidableEq, Repr

/-- Final verdict (`SafetyResult`); `raw_data`, `sources_checked` and
`metadata` are omitted (no claim consults them). -/
structure SafetyResult where
  safety_score : ℤ
  risk_level : RiskLevel
  is_honeypot : Bool
  confidence : ℚ
  warnings : List Warning
  recommendations : List Advice
  deriving DecidableEq, Repr

/-- Engine state after construction: the two weights. -/
structure ScoringEngine where
  honeypotWeight : ℚ
  onchainWeight : ℚ
  deriving DecidableEq, Repr

/-- `ScoringEngine` constructor: defaults 0.6 / 0.4; if the configured
pair does not sum to 1 (beyond 0.01 tolerance) it is normalized by
`1.0 / totalWeight`. -/
def mkEngine (hw ow : ℚ) : ScoringEngine :=
  let totalWeight := hw + ow
  if |totalWeight - 1| > 1/100 then
    let normFactor := 1 / totalWeight
    ⟨hw * normFactor, ow * normFactor⟩
  else
    ⟨hw, ow⟩

/-- The engine the request handler constructs (`new ScoringEngine({...})`,
default weights). -/
def defaultEngine : ScoringEngine := mkEngine (6/10) (4/10)

/-- `ScoringEngine.safeInt`: null/undefined/NaN fall back to the default,
numbers are `Math.round`ed. -/
def safeInt (v : Option ℚ) (defaultValue : ℤ) : ℤ :=
  match v with
  | none => defaultValue
  | some q => jsRound q

/-- `ScoringEngine.safeFloat`: null/undefined/NaN fall back to the default. -/
def safeFloat (v : Option ℚ) (defaultValue : ℚ) : ℚ :=
  match v with
  | none => defaultValue
  | some q => q

/-- Truthiness of a record's `error` field, as tested by
`if (!honeypotData.error)` etc. -/
def hasError (e : Option String) : Bool := strTruthy e

/-- `ScoringEngine.calculateSafetyScore`: weighted average of the
safety (= 100 - risk) of each error-free source, rounded and clamped
to [0,100]; 50 when no source is usable. -/
def calculateSafetyScore (e : ScoringEngine) (h : HoneypotData) (o : OnchainData) : ℤ :=
  let scoresWeights : List (ℤ × ℚ) :=
    (if hasError h.error then [] else [(100 - safeInt h.risk_score 50, e.honeypotWeight)]) ++
    (if hasError o.error then [] else [(100 - safeInt o.risk_score 50, e.onchainWeight)])
  if scoresWeights.isEmpty then 50
  else
    let totalWeight := (scoresWeights.map Prod.snd).sum
    let weightedSum := (scoresWeights.map (fun p => (p.1 : ℚ) * p.2)).sum
    let finalScore := jsRound (weightedSum / totalWeight)
    max 0 (min 100 finalScore)

/-- `ScoringEngine.getRiskLevel`: threshold mapping, evaluated high to low
(thresholds `RISK_THRESHOLDS` = 80/60/40/20). -/
def getRiskLevel (safetyScore : ℤ) : RiskLevel :=
  if safetyScore ≥ 80 then .SAFE
  else if safetyScore ≥ 60 then .LOW_RISK
  else if safetyScore ≥ 40 then .MEDIUM_RISK
  else if safetyScore ≥ 20 then .HIGH_RISK
  else .CRITICAL

/-- `ScoringEngine.checkHoneypot`: `Boolean(honeypotData.is_honeypot)`. -/
def checkHoneypot (h : HoneypotData) : Bool := boolTruthy h.is_honeypot

/-- The test `this.safeInt(honeypotData.holder_count) > 100`. -/
def holderCountAbove100 (h : HoneypotData) : Bool :=
  decide (safeInt h.holder_count 0 > 100)

/-- The test `honeypotData.metadata?.liquidity_usd > 10000` (JS comparison
against null/undefined is false). -/
def liquidityAbove10k (h : HoneypotData) : Bool :=
  match h.liquidity_usd with
  | some v => decide (v > 10000)
  | none => false

/-- The optional-chaining access `onchainData.checks?.has_name`
(undefined when `checks` is absent, hence falsy). -/
def onchainHasName (o : OnchainData) : Bool :=
  match o.checks with
  | some checks => checks.has_name
  | none => false

/-- The optional-chaining access `onchainData.checks?.has_symbol`. -/
def onchainHasSymbol (o : OnchainData) : Bool :=
  match o.checks with
  | some checks => checks.has_symbol
  | none => false

/-- `ScoringEngine.calculateConfidence`: saturating additive heuristic
starting at 0.5, capped at 1.0; bonus chains mirror the source's
sequential `confidence +=` mutations. -/
def calculateConfidence (h : HoneypotData) (o : OnchainData) : ℚ :=
  let confidence : ℚ := 1/2
  let confidence :=
    if !hasError h.error && !hasError o.error then confidence + 3/10
    else if !hasError h.error || !hasError o.error then confidence + 1/10
    else confidence
  let confidence :=
    if !hasError h.error then
      let c := if boolTruthy h.contract_verified then confidence + 1/10 else confidence
      let c := if holderCountAbove100 h then c + 1/20 else c
      let c := if liquidityAbove10k h then c + 1/20 else c
      c
    else confidence
  let confidence :=
    if !hasError o.error && boolTruthy o.is_erc20 then
      let c := confidence + 1/20
      let c := if onchainHasName o then c + 1/40 else c
      let c := if onchainHasSymbol o then c + 1/40 else c
      c
    else confidence
  min 1 confidence

/-- Honeypot section of `generateWarnings` (critical warning plus echoed
upstream reason when truthy). -/
def honeypotWarnings (h : HoneypotData) : List Warning :=
  if boolTruthy h.is_honeypot then
    Warning.honeypotDetected ::
      (if !h.honeypot_reason.isEmpty then [Warning.honeypotReason h.honeypot_reason] else [])
  else []

/-- Sell-tax section of `generateWarnings`: if/else-if chain over
`TAX_THRESHOLDS` = CRITICAL 50 / HIGH 20 / MEDIUM 10 / LOW 5. -/
def sellTaxWarnings (h : HoneypotData) : List Warning :=
  let sellTax := safeFloat h.sell_tax 0
  if sellTax > 50 then [.sellTaxCritical sellTax]
  else if sellTax > 20 then [.sellTaxVeryHigh sellTax]
  else if sellTax > 10 then [.sellTaxHigh sellTax]
  else if sellTax > 5 then [.sellTaxModerate sellTax]
  else []

/-- Buy-tax section of `generateWarnings`: only the HIGH/MEDIUM/LOW tiers. -/
def buyTaxWarnings (h : HoneypotData) : List Warning :=
  let buyTax := safeFloat h.buy_tax 0
  if buyTax > 20 then [.buyTaxVeryHigh buyTax]
  else if buyTax > 10 then [.buyTaxHigh buyTax]
  else if buyTax > 5 then [.buyTaxModerate buyTax]
  else []

/-- Holder-concentration section of `generateWarnings` (90/75/50 cutoffs). -/
def holderWarnings (h : HoneypotData) : List Warning :=
  let top10Percent := safeFloat h.top_10_holders_percent 0
  if top10Percent > 90 then [.centralizationExtreme top10Percent]
  else if top10Percent > 75 then [.centralizationVeryHigh top10Percent]
  else if top10Percent > 50 then [.centralizationHigh top10Percent]
  else []

/-- Contract-verification / proxy sections of `generateWarnings`
(`=== false` test, then truthiness of `is_proxy`). -/
def verificationWarnings (h : HoneypotData) : List Warning :=
  (if h.contract_verified = some false then [Warning.contractNotVerified] else []) ++
  (if boolTruthy h.is_proxy then [Warning.proxyContract] else [])

/-- On-chain sections of `generateWarnings`: not-a-contract, non-ERC20,
and the code-size pair (`null`-guarded, <100 / >50000). -/
def onchainWarnings (o : OnchainData) : List Warning :=
  (if o.is_contract = some false then [Warning.notAContract] else []) ++
  (if o.is_erc20 = some false && boolTruthy o.is_contract then [Warning.notErc20] else []) ++
  (match o.code_size with
   | none => []
   | some codeSize =>
       if codeSize < 100 then [.smallCode]
       else if codeSize > 50000 then [.largeCode]
       else [])

/-- `ScoringEngine.generateWarnings`: the sequential `push` sites, in
source order. -/
def generateWarnings (h : HoneypotData) (o : OnchainData) : List Warning :=
  honeypotWarnings h ++ sellTaxWarnings h ++ buyTaxWarnings h ++ holderWarnings h ++
    verificationWarnings h ++ onchainWarnings o

/-- `ScoringEngine.generateRecommendations`: honeypot short-circuits to the
fixed 2-item abort list; otherwise one fixed bracket chosen by
`safetyScore` at the 80/60/40/20 cutoffs, with a warning-count line
appended when `warnings` is non-empty. -/
def generateRecommendations (safetyScore : ℤ) (isHoneypot : Bool)
    (warnings : List Warning) : List Advice :=
  if isHoneypot then
    [.doNotInteractHoneypot, .doNotBuyReportScam]
  else if safetyScore ≥ 80 then
    [.generallySafe, .appearsLegitimate, .alwaysVerifyExplorer] ++
      (if warnings.length > 0 then [.noteMinorWarnings warnings.length] else [])
  else if safetyScore ≥ 60 then
    [.exerciseCaution, .smallTestTransaction, .checkRecentTransactions,
     .verifyLiquidityVolume] ++
      (if warnings.length > 0 then [.reviewWarningsCarefully warnings.length] else [])
  else if safetyScore ≥ 40 then
    [.highRiskExtremeCaution, .onlyIfUnderstandRisks, .neverInvestMoreThanAfford,
     .researchMultipleSources] ++
      (if warnings.length > 0 then [.significantWarningsFound warnings.length] else [])
  else if safetyScore ≥ 20 then
    [.veryHighRiskAvoid, .multipleRedFlags, .highProbabilityScam] ++
      (if warnings.length > 0 then [.criticalWarningsFound warnings.length] else []) ++
      [.considerSaferAlternatives]
  else
    [.criticalDoNotInteract, .severeIssuesDetected, .almostCertainlyScam] ++
      (if warnings.length > 0 then [.criticalIssuesFound warnings.length] else []) ++
      [.protectYourFunds]

/-- `ScoringEngine.aggregateResults`: assembles the verdict from the
component calculations. -/
def aggregateResults (e : ScoringEngine) (h : HoneypotData) (o : OnchainData) :
    SafetyResult :=
  let safetyScore := calculateSafetyScore e h o
  let riskLevel := getRiskLevel safetyScore
  let isHoneypot := checkHoneypot h
  let confidence := calculateConfidence h o
  let warnings := generateWarnings h o
  let recommendations := generateRecommendations safetyScore isHoneypot warnings
  { safety_score := safetyScore
    risk_level := riskLevel
    is_honeypot := isHoneypot
    confidence := confidence
    warnings := warnings
    recommendations := recommendations }

/-! ### Reputation-source normalizer (`HoneypotChecker`) -/

/-- The fields of the honeypot.is JSON payload that `parseResponse`
extracts (nested `summary` / `honeypotResult` / `simulationResult` /
`holderAnalysis` / `contractCode` / `token` / `pair` objects flattened).
`Option` marks fields that may be absent / non-numeric upstream; the
`Boolean(...)`-coerced fields are plain `Bool`. -/
structure ApiData where
  summary_risk : Option String
  honeypotResult_isHoneypot : Bool
  honeypotResult_honeypotReason : Option String
  simulation_buyTax : Option ℚ
  simulation_sellTax : Option ℚ
  simulation_transferTax : Option ℚ
  simulation_buyGas : Option ℚ
  simulation_sellGas : Option ℚ
  holderAnalysis_holders : Option ℚ
  holderAnalysis_top10Percent : Option ℚ
  contractCode_openSource : Bool
  contractCode_isProxy : Bool
  token_name : Option String
  token_symbol : Option String
  pair_liquidity_usd : Option ℚ
  pair_liquidity_locked : Bool
  deriving DecidableEq, Repr

/-- `HoneypotChecker.riskToScore`: qualitative label to numeric score;
unrecognized labels default to 50. Lower-casing is modelled by
`String.toLower`, the whitespace-to-underscore rewrite by a character
map. -/
def riskToScore (risk : String) : ℚ :=
  let normalizedRisk := (risk.toLower).map (fun c => if c = ' ' then '_' else c)
  if normalizedRisk = "very_low" then 5
  else if normalizedRisk = "low" then 20
  else if normalizedRisk = "medium" then 50
  else if normalizedRisk = "high" then 75
  else if normalizedRisk = "very_high" then 90
  else if normalizedRisk = "honeypot" then 100
  else if normalizedRisk = "unknown" then 50
  else 50

/-- `HoneypotChecker.parseTax`: null/undefined/NaN give `null`; a numeric
value `< 1` is treated as a fraction and scaled by 100, otherwise passed
through. -/
def parseTax (value : Option ℚ) : Option ℚ :=
  match value with
  | none => none
  | some num => some (if num < 1 then num * 100 else num)

/-- `HoneypotChecker.parseNumber` / `parseFloat`: null/undefined/NaN give
`null`, otherwise the number. -/
def parseNumber (value : Option ℚ) : Option ℚ := value

/-- `HoneypotChecker.errorResponse`: the failure-sentinel reputation
record (risk 50, everything else defaulted). -/
def honeypotErrorResponse (error : String) : HoneypotData :=
  { source := "honeypot.is"
    risk_level := "unknown"
    risk_score := some 50
    is_honeypot := none
    error := some error
    buy_tax := none
    sell_tax := none
    transfer_tax := none
    buy_gas_used := none
    sell_gas_used := none
    holder_count := none
    top_10_holders_percent := none
    contract_verified := none
    is_proxy := none
    honeypot_reason := ""
    liquidity_usd := none
    liquidity_locked := false }

/-- `HoneypotChecker.parseResponse`: normalizes one API payload into a
`HoneypotData` record (never sets `error`). -/
def parseResponse (data : ApiData) : HoneypotData :=
  let risk := data.summary_risk.getD "unknown"
  let riskScore := riskToScore risk
  { source := "honeypot.is"
    risk_level := risk
    risk_score := some riskScore
    is_honeypot := some data.honeypotResult_isHoneypot
    buy_tax := parseTax data.simulation_buyTax
    sell_tax := parseTax data.simulation_sellTax
    transfer_tax := parseTax data.simulation_transferTax
    buy_gas_used := parseNumber data.simulation_buyGas
    sell_gas_used := parseNumber data.simulation_sellGas
    holder_count := parseNumber data.holderAnalysis_holders
    top_10_holders_percent := parseNumber data.holderAnalysis_top10Percent
    contract_verified := some data.contractCode_openSource
    is_proxy := some data.contractCode_isProxy
    honeypot_reason := data.honeypotResult_honeypotReason.getD ""
    liquidity_usd := parseNumber data.pair_liquidity_usd
    liquidity_locked := data.pair_liquidity_locked
    error := none }

/-- `HoneypotChecker.checkToken` outcome: either every retry attempt
failed (`.error msg`, producing the failure sentinel) or some attempt
returned a payload that is parsed. -/
def checkTokenModel (outcome : Except String ApiData) : HoneypotData :=
  match outcome with
  | .error msg => honeypotErrorResponse msg
  | .ok data => parseResponse data

/-! ### Chain-source normalizer (`OnChainAnalyzer`) -/

/-- Outcomes of the external RPC interactions one `analyzeToken` call
performs: whether the chain id has a registered endpoint, whether the
address passes `web3.utils.isAddress`, the `getCode` result (after
retries; `.error` = the top-level exception text), and the settlement of
each of the five `Promise.allSettled` interface probes (`none` =
rejected/timeout). -/
structure ChainEnv where
  chainId : ℕ
  chainConfigured : Bool
  validAddress : Bool
  getCode : Except String String
  nameCall : Option String
  symbolCall : Option String
  decimalsCall : Option ℚ
  supplyCall : Option ℚ
  balanceCall : Option ℚ
  deriving Repr

/-- `OnChainAnalyzer.getCodeSize`: hex-string length minus the `0x`
prefix; empty or bare `0x` count as 0. -/
def getCodeSize (code : String) : ℕ :=
  if code = "" ∨ code = "0x" then 0 else code.length - 2

/-- `OnChainAnalyzer.errorResponse`: the failure-sentinel chain record
(risk 50, everything else nulled). -/
def onchainErrorResponse (error : String) : OnchainData :=
  { source := "onchain"
    is_contract := none
    has_code := none
    code_size := none
    is_erc20 := none
    name := none
    symbol := none
    decimals := none
    total_supply := none
    risk_score := some 50
    checks := none
    error := some error }

/-- Result shape of `OnChainAnalyzer.readTokenData`. -/
structure TokenData where
  is_erc20 : Bool
  name : Option String
  symbol : Option String
  decimals : Option ℚ
  total_supply : Option ℚ
  checks : Checks
  deriving DecidableEq, Repr

/-- `OnChainAnalyzer.readTokenData`: derives the six checks from the five
probe settlements; compliance requires name, symbol, valid decimals and
nonzero supply (balanceOf not required). -/
def readTokenData (env : ChainEnv) : TokenData :=
  let name := env.nameCall
  let symbol := env.symbolCall
  let decimals := env.decimalsCall
  let totalSupply := env.supplyCall
  let checks : Checks :=
    { has_name := match name with | some s => !s.isEmpty | none => false
      has_symbol := match symbol with | some s => !s.isEmpty | none => false
      valid_decimals := match decimals with | some d => decide (0 ≤ d ∧ d ≤ 18) | none => false
      has_supply := match totalSupply with | some t => decide (t > 0) | none => false
      has_balance_of := env.balanceCall.isSome
      reasonable_code_size := true }
  { is_erc20 := checks.has_name && checks.has_symbol &&
      checks.valid_decimals && checks.has_supply
    name := name
    symbol := symbol
    decimals := decimals
    total_supply := totalSupply
    checks := checks }

/-- `OnChainAnalyzer.calculateRiskScore`: sum of fixed penalties, capped
at 100. -/
def calculateRiskScore (tokenData : TokenData) (codeSize : ℕ) : ℕ :=
  let score := 0
  let score := if !tokenData.is_erc20 then score + 40 else score
  let checks := tokenData.checks
  let score := if !checks.has_name then score + 10 else score
  let score := if !checks.has_symbol then score + 10 else score
  let score := if !checks.valid_decimals then score + 15 else score
  let score := if !checks.has_supply then score + 15 else score
  let score := if !checks.has_balance_of then score + 5 else score
  let score :=
    if codeSize < 100 then score + 20
    else if codeSize > 50000 then score + 10
    else score
  min score 100

/-- The record `analyzeToken` returns from its empty-bytecode
short-circuit (EOA: not a contract, maximal risk, `error` set). -/
def eoaRecord : OnchainData :=
  { source := "onchain"
    is_contract := some false
    has_code := some false
    code_size := some 0
    is_erc20 := some false
    name := none
    symbol := none
    decimals := none
    total_supply := none
    risk_score := some 100
    checks := none
    error := some "Address is not a smart contract" }

/-- `OnChainAnalyzer.analyzeToken`: unregistered chain or invalid address
give the ordinary failure sentinel; a thrown `getCode` gives the
failure sentinel; empty bytecode short-circuits to `eoaRecord`;
otherwise the interface probes run and the technical risk score is
computed. -/
def analyzeTokenModel (env : ChainEnv) : OnchainData :=
  if !env.chainConfigured then
    onchainErrorResponse ("Chain " ++ toString env.chainId ++ " not configured")
  else if !env.validAddress then
    onchainErrorResponse "Invalid Ethereum address format"
  else
    match env.getCode with
    | .error msg => onchainErrorResponse ("Analysis failed: " ++ msg)
    | .ok code =>
        let codeSize := getCodeSize code
        let hasCode := codeSize > 2
        if !hasCode then eoaRecord
        else
          let tokenData := readTokenData env
          let riskScore := calculateRiskScore tokenData codeSize
          { source := "onchain"
            is_contract := some true
            has_code := some true
            code_size := some (codeSize : ℚ)
            is_erc20 := some tokenData.is_erc20
            name := tokenData.name
            symbol := tokenData.symbol
            decimals := tokenData.decimals
            total_supply := tokenData.total_supply
            risk_score := some (riskScore : ℚ)
            checks := some tokenData.checks
            error := none }

/-! ### Request surface (`POST /api/v1/analyze` pre-dispatch check) -/

/-- Responses the analyze handler can produce that the claims consult:
the structured `UNSUPPORTED_CHAIN` rejection (HTTP 400) or the
aggregated verdict. -/
inductive AnalyzeResponse where
  | unsupportedChain (chainId : ℕ) (supportedChains : List ℕ)
  | success (result : SafetyResult)
  deriving DecidableEq, Repr

/-- The handler body after input validation: the chain-support check runs
before either fetcher; the fetcher outputs are parameters because they
are only consulted on the supported path. -/
def handleAnalyze (supportedChains : List ℕ) (chainId : ℕ)
    (honeypotData : HoneypotData) (onchainData : OnchainData) : AnalyzeResponse :=
  if chainId ∉ supportedChains then
    .unsupportedChain chainId supportedChains
  else
    .success (aggregateResults defaultEngine honeypotData onchainData)


/-- A concrete environment whose address holds no deployed bytecode (an
externally-owned address): `getCode` returns the bare `0x`. -/
def eoaEnv : ChainEnv :=
  { chainId := 1
    chainConfigured := true
    validAddress := true
    getCode := .ok "0x"
    nameCall := none
    symbolCall := none
    decimalsCall := none
    supplyCall := none
    balanceCall := none }

/-- A concrete environment for an unregistered chain id (999). -/
def chain999Env : ChainEnv :=
  { chainId := 999
    chainConfigured := false
    validAddress := true
    getCode := .ok "0x"
    nameCall := none
    symbolCall := none
    decimalsCall := none
    supplyCall := none
    balanceCall := none }

/-- A concrete reputation record with the honeypot flag confirmed. -/
def honeypotPositiveRecord : HoneypotData :=
  { source := "honeypot.is"
    risk_level := "honeypot"
    risk_score := some 100
    is_honeypot := some true
    buy_tax := some 0
    sell_tax := some 0
    transfer_tax := none
    buy_gas_used := none
    sell_gas_used := none
    holder_count := some 10
    top_10_holders_percent := some 10
    contract_verified := some true
    is_proxy := some false
    honeypot_reason := "cannot sell"
    liquidity_usd := some 100
    liquidity_locked := false
    error := none }

/-- The confidence heuristic as the claim states it: a saturating sum of
independent bonus terms starting at 0.5 and capped at 1.0. A source
"reports" a datum only when it is itself error-free; the has-name /
has-symbol bonuses are separate additional terms on top of the
compliance bonus (the intentional double-count), granted when the
error-free chain source reports a compliant interface with the
respective check flag set. -/
def confidenceSpec (h : HoneypotData) (o : OnchainData) : ℚ :=
  min 1 ((1/2 : ℚ)
    + (if !hasError h.error && !hasError o.error then 3/10
       else if !hasError h.error || !hasError o.error then 1/10 else 0)
    + (if !hasError h.error && boolTruthy h.contract_verified then 1/10 else 0)
    + (if !hasError h.error && holderCountAbove100 h then 1/20 else 0)
    + (if !hasError h.error && liquidityAbove10k h then 1/20 else 0)
    + (if !hasError o.error && boolTruthy o.is_erc20 then 1/20 else 0)
    + (if !hasError o.error && boolTruthy o.is_erc20 && onchainHasName o then 1/40 else 0)
    + (if !hasError o.error && boolTruthy o.is_erc20 && onchainHasSymbol o then 1/40 else 0))

/-- Membership in the sell-tax warning family. -/
def isSellTaxWarning : Warning → Bool
  | .sellTaxCritical _ | .sellTaxVeryHigh _ | .sellTaxHigh _ | .sellTaxModerate _ => true
  | _ => false

/-- Membership in the buy-tax warning family (the type has no critical
buy-tax constructor: the source has no such `push` site). -/
def isBuyTaxWarning : Warning → Bool
  | .buyTaxVeryHigh _ | .buyTaxHigh _ | .buyTaxModerate _ => true
  | _ => false

/-- Membership in the holder-concentration warning family. -/
def isHolderWarning : Warning → Bool
  | .centralizationExtreme _ | .centralizationVeryHigh _ | .centralizationHigh _ => true
  | _ => false

/-! ### Theorems -/

/-- Claim C2: whenever both input records carry an error (as the engine
tests it), `aggregateResults` returns a verdict with `safety_score = 50`;
being a total function, it cannot fail or throw. -/
theorem c2_both_errors_neutral (e : ScoringEngine) (h : HoneypotData) (o : OnchainData)
    (hh : hasError h.error = true) (ho : hasError o.error = true) :
    (aggregateResults e h o).safety_score = 50 := by
  simp [aggregateResults, calculateSafetyScore, hh, ho]

/-- Witness for C2 at the two concrete failure sentinels. -/
theorem c2_both_errors_neutral_witness :
    hasError (honeypotErrorResponse "API down").error = true ∧
    hasError (onchainErrorResponse "RPC down").error = true ∧
    (aggregateResults defaultEngine (honeypotErrorResponse "API down")
        (onchainErrorResponse "RPC down")).safety_score = 50 :=
  ⟨rfl, rfl, c2_both_errors_neutral defaultEngine _ _ rfl rfl⟩

/-- Claim C3: with the honeypot flag set, `generateRecommendations`
short-circuits to the fixed 2-item abort list for every safety score and
warnings list, and the aggregated verdict's recommendations are that
list whenever the engine's honeypot check fires. -/
theorem c3_honeypot_short_circuit (e : ScoringEngine) (h : HoneypotData) (o : OnchainData)
    (s : ℤ) (w : List Warning) :
    generateRecommendations s true w =
      [Advice.doNotInteractHoneypot, Advice.doNotBuyReportScam] ∧
    (checkHoneypot h = true →
      (aggregateResults e h o).recommendations =
        [Advice.doNotInteractHoneypot, Advice.doNotBuyReportScam]) := by
  constructor
  · rfl
  · intro hhp
    simp [aggregateResults, generateRecommendations, hhp]

/-- Witness for C3: score 95 with honeypot flag still aborts, and a
concrete honeypot-positive aggregation aborts. -/
theorem c3_honeypot_short_circuit_witness :
    generateRecommendations 95 true [Warning.smallCode] =
      [Advice.doNotInteractHoneypot, Advice.doNotBuyReportScam] ∧
    (aggregateResults defaultEngine honeypotPositiveRecord
        (onchainErrorResponse "z")).recommendations =
      [Advice.doNotInteractHoneypot, Advice.doNotBuyReportScam] :=
  ⟨(c3_honeypot_short_circuit defaultEngine honeypotPositiveRecord
      (onchainErrorResponse "z") 95 [Warning.smallCode]).1,
   (c3_honeypot_short_circuit defaultEngine honeypotPositiveRecord
      (onchainErrorResponse "z") 95 [Warning.smallCode]).2 rfl⟩

/-- Claim C9: the reputation-source tax normalizer maps numeric `v < 1`
to `v * 100` and passes `v ≥ 1` through, independently for buy, sell and
transfer tax; raw `0.07` and raw `7` both normalize to 7 percent. -/
theorem c9_tax_normalization (data : ApiData) (v : ℚ) :
    (parseResponse data).buy_tax = parseTax data.simulation_buyTax ∧
    (parseResponse data).sell_tax = parseTax data.simulation_sellTax ∧
    (parseResponse data).transfer_tax = parseTax data.simulation_transferTax ∧
    parseTax (some v) = some (if v < 1 then v * 100 else v) ∧
    parseTax (some (7/100)) = some 7 ∧
    parseTax (some 7) = some 7 := by
  refine ⟨rfl, rfl, rfl, rfl, ?_, ?_⟩ <;> norm_num [parseTax]

/-- Claim C8: the chain source's technical risk score is exactly the
clamped sum of the fixed penalties. -/
theorem c8_technical_risk_score (tokenData : TokenData) (codeSize : ℕ) :
    calculateRiskScore tokenData codeSize =
      min ((if !tokenData.is_erc20 then 40 else 0) +
           (if !tokenData.checks.has_name then 10 else 0) +
           (if !tokenData.checks.has_symbol then 10 else 0) +
           (if !tokenData.checks.valid_decimals then 15 else 0) +
           (if !tokenData.checks.has_supply then 15 else 0) +
           (if !tokenData.checks.has_balance_of then 5 else 0) +
           (if codeSize < 100 then 20 else 0) +
           (if codeSize > 50000 then 10 else 0)) 100 ∧
    calculateRiskScore tokenData codeSize ≤ 100 := by
  rcases tokenData with ⟨e20, nm, sy, de, ts, ⟨k1, k2, k3, k4, k5, k6⟩⟩
  by_cases h1 : codeSize < 100 <;> by_cases h2 : codeSize > 50000 <;>
    cases e20 <;> cases k1 <;> cases k2 <;> cases k3 <;> cases k4 <;> cases k5 <;>
      simp [calculateRiskScore, h1, h2] <;> omega

/-- The aggregated safety score is always within [0,100] (the no-source
branch returns 50, the weighted branch is clamped). -/
lemma calculateSafetyScore_bounds (e : ScoringEngine) (h : HoneypotData) (o : OnchainData) :
    0 ≤ calculateSafetyScore e h o ∧ calculateSafetyScore e h o ≤ 100 := by
  by_cases hh : hasError h.error = true <;> by_cases ho : hasError o.error = true <;>
    simp [calculateSafetyScore, hh, ho]

/-- Claim C1: the aggregated `safety_score` always lies within [0,100],
the verdict's `risk_level` is `getRiskLevel` of it, and on [0,100] the
risk-level mapping is exactly the non-overlapping high-to-low bracket
function (in particular 79 maps to LOW_RISK and 80 to SAFE). -/
theorem c1_risk_level_mapping (e : ScoringEngine) (h : HoneypotData) (o : OnchainData)
    (s : ℤ) (hs0 : 0 ≤ s) (hs1 : s ≤ 100) :
    (0 ≤ (aggregateResults e h o).safety_score ∧
     (aggregateResults e h o).safety_score ≤ 100) ∧
    (aggregateResults e h o).risk_level =
      getRiskLevel ((aggregateResults e h o).safety_score) ∧
    (getRiskLevel s = .SAFE ↔ 80 ≤ s) ∧
    (getRiskLevel s = .LOW_RISK ↔ 60 ≤ s ∧ s < 80) ∧
    (getRiskLevel s = .MEDIUM_RISK ↔ 40 ≤ s ∧ s < 60) ∧
    (getRiskLevel s = .HIGH_RISK ↔ 20 ≤ s ∧ s < 40) ∧
    (getRiskLevel s = .CRITICAL ↔ s < 20) ∧
    getRiskLevel 79 = .LOW_RISK ∧ getRiskLevel 80 = .SAFE := by
  refine ⟨calculateSafetyScore_bounds e h o, rfl, ?_, ?_, ?_, ?_, ?_, by decide, by decide⟩ <;>
    · unfold getRiskLevel
      split_ifs <;> simp <;> omega

/-- Witness for C1 at score 79 and a concrete aggregation. -/
theorem c1_risk_level_mapping_witness :
    0 ≤ (aggregateResults defaultEngine (honeypotErrorResponse "down")
          (onchainErrorResponse "down")).safety_score ∧
    getRiskLevel 79 = .LOW_RISK ∧ getRiskLevel 80 = .SAFE :=
  ⟨(c1_risk_level_mapping defaultEngine (honeypotErrorResponse "down")
      (onchainErrorResponse "down") 79 (by norm_num) (by norm_num)).1.1,
   (c1_risk_level_mapping defaultEngine (honeypotErrorResponse "down")
      (onchainErrorResponse "down") 79 (by norm_num) (by norm_num)).2.2.2.2.2.2.2⟩

set_option maxHeartbeats 12000000 in
/-- Claim C6: for every pair of input records `calculateConfidence` equals
the claim's saturating additive formula. -/
theorem c6_confidence_formula (h : HoneypotData) (o : OnchainData) :
    calculateConfidence h o = confidenceSpec h o := by
  unfold calculateConfidence confidenceSpec
  rcases Bool.eq_false_or_eq_true (hasError h.error) with h1 | h1 <;>
  rcases Bool.eq_false_or_eq_true (hasError o.error) with h2 | h2 <;>
  rcases Bool.eq_false_or_eq_true (boolTruthy h.contract_verified) with h3 | h3 <;>
  rcases Bool.eq_false_or_eq_true (holderCountAbove100 h) with h4 | h4 <;>
  rcases Bool.eq_false_or_eq_true (liquidityAbove10k h) with h5 | h5 <;>
  rcases Bool.eq_false_or_eq_true (boolTruthy o.is_erc20) with h6 | h6 <;>
  rcases Bool.eq_false_or_eq_true (onchainHasName o) with h7 | h7 <;>
  rcases Bool.eq_false_or_eq_true (onchainHasSymbol o) with h8 | h8 <;>
  rw [h1, h2, h3, h4, h5, h6, h7, h8] <;> norm_num

lemma honeypotWarnings_filters (h : HoneypotData) :
    (honeypotWarnings h).filter isSellTaxWarning = [] ∧
    (honeypotWarnings h).filter isBuyTaxWarning = [] ∧
    (honeypotWarnings h).filter isHolderWarning = [] := by
  unfold honeypotWarnings; split_ifs <;> exact ⟨rfl, rfl, rfl⟩

lemma sellTaxWarnings_filters (h : HoneypotData) :
    (sellTaxWarnings h).filter isSellTaxWarning = sellTaxWarnings h ∧
    (sellTaxWarnings h).filter isBuyTaxWarning = [] ∧
    (sellTaxWarnings h).filter isHolderWarning = [] := by
  simp only [sellTaxWarnings]; split_ifs <;> exact ⟨rfl, rfl, rfl⟩

lemma buyTaxWarnings_filters (h : HoneypotData) :
    (buyTaxWarnings h).filter isSellTaxWarning = [] ∧
    (buyTaxWarnings h).filter isBuyTaxWarning = buyTaxWarnings h ∧
    (buyTaxWarnings h).filter isHolderWarning = [] := by
  simp only [buyTaxWarnings]; split_ifs <;> exact ⟨rfl, rfl, rfl⟩

lemma holderWarnings_filters (h : HoneypotData) :
    (holderWarnings h).filter isSellTaxWarning = [] ∧
    (holderWarnings h).filter isBuyTaxWarning = [] ∧
    (holderWarnings h).filter isHolderWarning = holderWarnings h := by
  simp only [holderWarnings]; split_ifs <;> exact ⟨rfl, rfl, rfl⟩

lemma verificationWarnings_filters (h : HoneypotData) :
    (verificationWarnings h).filter isSellTaxWarning = [] ∧
    (verificationWarnings h).filter isBuyTaxWarning = [] ∧
    (verificationWarnings h).filter isHolderWarning = [] := by
  unfold verificationWarnings; split_ifs <;> exact ⟨rfl, rfl, rfl⟩

lemma onchainWarnings_filters (o : OnchainData) :
    (onchainWarnings o).filter isSellTaxWarning = [] ∧
    (onchainWarnings o).filter isBuyTaxWarning = [] ∧
    (onchainWarnings o).filter isHolderWarning = [] := by
  simp only [onchainWarnings]
  cases o.code_size <;> dsimp only <;>
    first
      | exact ⟨rfl, rfl, rfl⟩
      | (split_ifs <;> exact ⟨rfl, rfl, rfl⟩)

/-- The sell-tax family warnings of the whole output are exactly the
sell-tax segment, and likewise for the other two families. -/
lemma generateWarnings_filters (h : HoneypotData) (o : OnchainData) :
    (generateWarnings h o).filter isSellTaxWarning = sellTaxWarnings h ∧
    (generateWarnings h o).filter isBuyTaxWarning = buyTaxWarnings h ∧
    (generateWarnings h o).filter isHolderWarning = holderWarnings h := by
  unfold generateWarnings
  simp [List.filter_append, (honeypotWarnings_filters h).1, (honeypotWarnings_filters h).2.1,
    (honeypotWarnings_filters h).2.2, (sellTaxWarnings_filters h).1,
    (sellTaxWarnings_filters h).2.1, (sellTaxWarnings_filters h).2.2,
    (buyTaxWarnings_filters h).1, (buyTaxWarnings_filters h).2.1,
    (buyTaxWarnings_filters h).2.2, (holderWarnings_filters h).1,
    (holderWarnings_filters h).2.1, (holderWarnings_filters h).2.2,
    (verificationWarnings_filters h).1, (verificationWarnings_filters h).2.1,
    (verificationWarnings_filters h).2.2, (onchainWarnings_filters o).1,
    (onchainWarnings_filters o).2.1, (onchainWarnings_filters o).2.2]

/-- Tier selection within the sell-tax family: highest exceeded
threshold wins, at most one warning. -/
lemma sellTaxWarnings_tiers (h : HoneypotData) :
    (sellTaxWarnings h).length ≤ 1 ∧
    (50 < safeFloat h.sell_tax 0 →
      sellTaxWarnings h = [.sellTaxCritical (safeFloat h.sell_tax 0)]) ∧
    (20 < safeFloat h.sell_tax 0 ∧ safeFloat h.sell_tax 0 ≤ 50 →
      sellTaxWarnings h = [.sellTaxVeryHigh (safeFloat h.sell_tax 0)]) ∧
    (10 < safeFloat h.sell_tax 0 ∧ safeFloat h.sell_tax 0 ≤ 20 →
      sellTaxWarnings h = [.sellTaxHigh (safeFloat h.sell_tax 0)]) ∧
    (5 < safeFloat h.sell_tax 0 ∧ safeFloat h.sell_tax 0 ≤ 10 →
      sellTaxWarnings h = [.sellTaxModerate (safeFloat h.sell_tax 0)]) ∧
    (safeFloat h.sell_tax 0 ≤ 5 → sellTaxWarnings h = []) := by
  simp only [sellTaxWarnings]
  split_ifs <;>
    refine ⟨by simp, ?_, ?_, ?_, ?_, ?_⟩ <;>
    first
      | (intro hcond; rfl)
      | (rintro ⟨hc1, hc2⟩; first | rfl | (exfalso; linarith))
      | (intro hcond; exfalso; linarith)

/-- Tier selection within the buy-tax family (three tiers only). -/
lemma buyTaxWarnings_tiers (h : HoneypotData) :
    (buyTaxWarnings h).length ≤ 1 ∧
    (20 < safeFloat h.buy_tax 0 →
      buyTaxWarnings h = [.buyTaxVeryHigh (safeFloat h.buy_tax 0)]) ∧
    (10 < safeFloat h.buy_tax 0 ∧ safeFloat h.buy_tax 0 ≤ 20 →
      buyTaxWarnings h = [.buyTaxHigh (safeFloat h.buy_tax 0)]) ∧
    (5 < safeFloat h.buy_tax 0 ∧ safeFloat h.buy_tax 0 ≤ 10 →
      buyTaxWarnings h = [.buyTaxModerate (safeFloat h.buy_tax 0)]) ∧
    (safeFloat h.buy_tax 0 ≤ 5 → buyTaxWarnings h = []) := by
  simp only [buyTaxWarnings]
  split_ifs <;>
    refine ⟨by simp, ?_, ?_, ?_, ?_⟩ <;>
    first
      | (intro hcond; rfl)
      | (rintro ⟨hc1, hc2⟩; first | rfl | (exfalso; linarith))
      | (intro hcond; exfalso; linarith)

/-- Tier selection within the holder-concentration family. -/
lemma holderWarnings_tiers (h : HoneypotData) :
    (holderWarnings h).length ≤ 1 ∧
    (90 < safeFloat h.top_10_holders_percent 0 →
      holderWarnings h = [.centralizationExtreme (safeFloat h.top_10_holders_percent 0)]) ∧
    (75 < safeFloat h.top_10_holders_percent 0 ∧ safeFloat h.top_10_holders_percent 0 ≤ 90 →
      holderWarnings h = [.centralizationVeryHigh (safeFloat h.top_10_holders_percent 0)]) ∧
    (50 < safeFloat h.top_10_holders_percent 0 ∧ safeFloat h.top_10_holders_percent 0 ≤ 75 →
      holderWarnings h = [.centralizationHigh (safeFloat h.top_10_holders_percent 0)]) ∧
    (safeFloat h.top_10_holders_percent 0 ≤ 50 → holderWarnings h = []) := by
  simp only [holderWarnings]
  split_ifs <;>
    refine ⟨by simp, ?_, ?_, ?_, ?_⟩ <;>
    first
      | (intro hcond; rfl)
      | (rintro ⟨hc1, hc2⟩; first | rfl | (exfalso; linarith))
      | (intro hcond; exfalso; linarith)

/-- Claim C7: at most one warning fires per family, with the highest
exceeded threshold winning: sell tax has the four tiers >50/>20/>10/>5,
buy tax only the three tiers >20/>10/>5 (no critical tier), holder
concentration the tiers >90/>75/>50; e.g. a sell tax above 50 yields
exactly the one critical sell-tax warning. -/
theorem c7_warning_tiers (h : HoneypotData) (o : OnchainData) :
    ((generateWarnings h o).filter isSellTaxWarning).length ≤ 1 ∧
    ((generateWarnings h o).filter isBuyTaxWarning).length ≤ 1 ∧
    ((generateWarnings h o).filter isHolderWarning).length ≤ 1 ∧
    (50 < safeFloat h.sell_tax 0 → (generateWarnings h o).filter isSellTaxWarning =
      [.sellTaxCritical (safeFloat h.sell_tax 0)]) ∧
    (20 < safeFloat h.sell_tax 0 ∧ safeFloat h.sell_tax 0 ≤ 50 →
      (generateWarnings h o).filter isSellTaxWarning =
        [.sellTaxVeryHigh (safeFloat h.sell_tax 0)]) ∧
    (10 < safeFloat h.sell_tax 0 ∧ safeFloat h.sell_tax 0 ≤ 20 →
      (generateWarnings h o).filter isSellTaxWarning =
        [.sellTaxHigh (safeFloat h.sell_tax 0)]) ∧
    (5 < safeFloat h.sell_tax 0 ∧ safeFloat h.sell_tax 0 ≤ 10 →
      (generateWarnings h o).filter isSellTaxWarning =
        [.sellTaxModerate (safeFloat h.sell_tax 0)]) ∧
    (safeFloat h.sell_tax 0 ≤ 5 → (generateWarnings h o).filter isSellTaxWarning = []) ∧
    (20 < safeFloat h.buy_tax 0 → (generateWarnings h o).filter isBuyTaxWarning =
      [.buyTaxVeryHigh (safeFloat h.buy_tax 0)]) ∧
    (10 < safeFloat h.buy_tax 0 ∧ safeFloat h.buy_tax 0 ≤ 20 →
      (generateWarnings h o).filter isBuyTaxWarning = [.buyTaxHigh (safeFloat h.buy_tax 0)]) ∧
    (5 < safeFloat h.buy_tax 0 ∧ safeFloat h.buy_tax 0 ≤ 10 →
      (generateWarnings h o).filter isBuyTaxWarning =
        [.buyTaxModerate (safeFloat h.buy_tax 0)]) ∧
    (safeFloat h.buy_tax 0 ≤ 5 → (generateWarnings h o).filter isBuyTaxWarning = []) ∧
    (90 < safeFloat h.top_10_holders_percent 0 →
      (generateWarnings h o).filter isHolderWarning =
        [.centralizationExtreme (safeFloat h.top_10_holders_percent 0)]) ∧
    (75 < safeFloat h.top_10_holders_percent 0 ∧ safeFloat h.top_10_holders_percent 0 ≤ 90 →
      (generateWarnings h o).filter isHolderWarning =
        [.centralizationVeryHigh (safeFloat h.top_10_holders_percent 0)]) ∧
    (50 < safeFloat h.top_10_holders_percent 0 ∧ safeFloat h.top_10_holders_percent 0 ≤ 75 →
      (generateWarnings h o).filter isHolderWarning =
        [.centralizationHigh (safeFloat h.top_10_holders_percent 0)]) ∧
    (safeFloat h.top_10_holders_percent 0 ≤ 50 →
      (generateWarnings h o).filter isHolderWarning = []) := by
  obtain ⟨hs, hb, hc⟩ := generateWarnings_filters h o
  rw [hs, hb, hc]
  obtain ⟨s0, s1, s2, s3, s4, s5⟩ := sellTaxWarnings_tiers h
  obtain ⟨b0, b1, b2, b3, b4⟩ := buyTaxWarnings_tiers h
  obtain ⟨t0, t1, t2, t3, t4⟩ := holderWarnings_tiers h
  exact ⟨s0, b0, t0, s1, s2, s3, s4, s5, b1, b2, b3, b4, t1, t2, t3, t4⟩

/-- Witness for C7: sell tax 55 yields exactly the critical sell-tax
warning; buy tax 55 yields only the very-high buy-tax warning. -/
theorem c7_warning_tiers_witness :
    (50 : ℚ) < safeFloat (some 55) 0 ∧
    (generateWarnings { honeypotPositiveRecord with
        is_honeypot := some false, sell_tax := some 55, buy_tax := some 55,
        top_10_holders_percent := some 20 } (onchainErrorResponse "z")).filter
      isSellTaxWarning = [.sellTaxCritical (safeFloat (some (55 : ℚ)) 0)] ∧
    (generateWarnings { honeypotPositiveRecord with
        is_honeypot := some false, sell_tax := some 55, buy_tax := some 55,
        top_10_holders_percent := some 20 } (onchainErrorResponse "z")).filter
      isBuyTaxWarning = [.buyTaxVeryHigh (safeFloat (some (55 : ℚ)) 0)] :=
  ⟨by norm_num [safeFloat],
   (c7_warning_tiers _ _).2.2.2.1 (by norm_num [safeFloat]),
   (c7_warning_tiers _ _).2.2.2.2.2.2.2.2.1 (by norm_num [safeFloat])⟩

/-- Scaling both weights of an engine by a nonzero factor does not change
the safety score: the weighted sum is divided by the total used weight. -/
lemma calculateSafetyScore_scale (c a b : ℚ) (hc : c ≠ 0)
    (h : HoneypotData) (o : OnchainData) :
    calculateSafetyScore ⟨c * a, c * b⟩ h o = calculateSafetyScore ⟨a, b⟩ h o := by
  unfold calculateSafetyScore
  rcases Bool.eq_false_or_eq_true (hasError h.error) with h1 | h1 <;>
  rcases Bool.eq_false_or_eq_true (hasError o.error) with h2 | h2 <;>
    simp only [h1, h2, Bool.false_eq_true, if_false, if_true, List.nil_append,
      List.append_nil, List.singleton_append, List.isEmpty_nil, List.isEmpty_cons,
      List.map_cons, List.map_nil, List.sum_cons, List.sum_nil, add_zero] <;>
  first
    | rfl
    | rw [show ((100 - safeInt h.risk_score 50 : ℤ) : ℚ) * (c * a) +
            ((100 - safeInt o.risk_score 50 : ℤ) : ℚ) * (c * b) =
          c * (((100 - safeInt h.risk_score 50 : ℤ) : ℚ) * a +
            ((100 - safeInt o.risk_score 50 : ℤ) : ℚ) * b) by ring,
        show c * a + c * b = c * (a + b) by ring,
        mul_div_mul_left _ _ hc]
    | rw [show ((100 - safeInt h.risk_score 50 : ℤ) : ℚ) * (c * a) =
          c * (((100 - safeInt h.risk_score 50 : ℤ) : ℚ) * a) by ring,
        mul_div_mul_left _ _ hc]
    | rw [show ((100 - safeInt o.risk_score 50 : ℤ) : ℚ) * (c * b) =
          c * (((100 - safeInt o.risk_score 50 : ℤ) : ℚ) * b) by ring,
        mul_div_mul_left _ _ hc]

lemma mkEngine_norm (hw ow : ℚ) (hcond : |hw + ow - 1| > 1/100) :
    mkEngine hw ow = ⟨hw * (1/(hw + ow)), ow * (1/(hw + ow))⟩ := by
  unfold mkEngine; rw [if_pos hcond]

lemma mkEngine_id (hw ow : ℚ) (hcond : ¬(|hw + ow - 1| > 1/100)) :
    mkEngine hw ow = ⟨hw, ow⟩ := by
  unfold mkEngine; rw [if_neg hcond]

/-- Claim C10: an engine configured with uniformly scaled weights
`(k*w1, k*w2)`, `k > 0`, produces the same safety score as one
configured with `(w1, w2)`, for every pair of input records (through
both the constructor normalization and the weighted average). -/
theorem c10_weight_scale_invariance (k w1 w2 : ℚ) (h : HoneypotData) (o : OnchainData)
    (hk : 0 < k) :
    calculateSafetyScore (mkEngine (k * w1) (k * w2)) h o =
      calculateSafetyScore (mkEngine w1 w2) h o := by
  have hk' : k ≠ 0 := ne_of_gt hk
  by_cases hS : w1 + w2 = 0
  · -- degenerate total weight 0: both constructors normalize to the zero pair
    have hc1 : |w1 + w2 - 1| > 1/100 := by rw [hS]; norm_num
    have hc2 : |k * w1 + k * w2 - 1| > 1/100 := by
      rw [show k * w1 + k * w2 = k * (w1 + w2) by ring, hS]; norm_num
    rw [mkEngine_norm _ _ hc1, mkEngine_norm _ _ hc2,
      show k * w1 + k * w2 = k * (w1 + w2) by ring, hS]
    norm_num
  · by_cases h1 : |w1 + w2 - 1| > 1/100 <;> by_cases h2 : |k * w1 + k * w2 - 1| > 1/100
    · -- both normalized: the weight pairs coincide
      rw [mkEngine_norm _ _ h1, mkEngine_norm _ _ h2,
        show k * w1 + k * w2 = k * (w1 + w2) by ring,
        show k * w1 * (1 / (k * (w1 + w2))) = w1 * (1 / (w1 + w2)) by
          rw [mul_one_div, mul_one_div, mul_div_mul_left _ _ hk'],
        show k * w2 * (1 / (k * (w1 + w2))) = w2 * (1 / (w1 + w2)) by
          rw [mul_one_div, mul_one_div, mul_div_mul_left _ _ hk']]
    · -- scaled pair keeps raw weights, base pair normalizes
      rw [mkEngine_norm _ _ h1, mkEngine_id _ _ h2,
        show k * w1 = (k * (w1 + w2)) * (w1 * (1 / (w1 + w2))) by
          field_simp; ring,
        show k * w2 = (k * (w1 + w2)) * (w2 * (1 / (w1 + w2))) by
          field_simp; ring]
      exact calculateSafetyScore_scale (k * (w1 + w2)) _ _
        (mul_ne_zero hk' hS) h o
    · -- scaled pair normalizes, base pair keeps raw weights
      rw [mkEngine_norm _ _ h2, mkEngine_id _ _ h1,
        show k * w1 * (1 / (k * w1 + k * w2)) = (1 / (w1 + w2)) * w1 by
          rw [show k * w1 + k * w2 = k * (w1 + w2) by ring, mul_one_div,
            mul_div_mul_left _ _ hk', mul_comm, mul_one_div],
        show k * w2 * (1 / (k * w1 + k * w2)) = (1 / (w1 + w2)) * w2 by
          rw [show k * w1 + k * w2 = k * (w1 + w2) by ring, mul_one_div,
            mul_div_mul_left _ _ hk', mul_comm, mul_one_div]]
      exact calculateSafetyScore_scale (1 / (w1 + w2)) _ _ (one_div_ne_zero hS) h o
    · -- neither normalizes
      rw [mkEngine_id _ _ h1, mkEngine_id _ _ h2]
      exact calculateSafetyScore_scale k _ _ hk' h o


/-- Witness for C10 at `k = 2` and the default weight pair. -/
theorem c10_weight_scale_invariance_witness :
    (0 : ℚ) < 2 ∧
    calculateSafetyScore (mkEngine (2 * (6/10)) (2 * (4/10))) honeypotPositiveRecord
        (onchainErrorResponse "z") =
      calculateSafetyScore (mkEngine (6/10) (4/10)) honeypotPositiveRecord
        (onchainErrorResponse "z") :=
  ⟨by norm_num,
   c10_weight_scale_invariance 2 (6/10) (4/10) honeypotPositiveRecord
     (onchainErrorResponse "z") (by norm_num)⟩

/-- Counterexample for C4: the empty-bytecode short-circuit of the chain
source sets `error` together with `risk_score = 100`, not the claimed 50. -/
theorem c4_error_sentinel_counterexample :
    analyzeTokenModel eoaEnv = eoaRecord ∧
    (analyzeTokenModel eoaEnv).error = some "Address is not a smart contract" ∧
    (analyzeTokenModel eoaEnv).risk_score = some 100 ∧
    (analyzeTokenModel eoaEnv).risk_score ≠ some 50 := by
  refine ⟨rfl, rfl, rfl, ?_⟩
  intro hcontra
  rw [show (analyzeTokenModel eoaEnv).risk_score = some 100 from rfl] at hcontra
  exact absurd (Option.some.inj hcontra) (by norm_num)

/-- Claim C4 as amended: every error record either fetcher returns is the
default failure sentinel with `risk_score = 50`, except the chain
source's empty-bytecode short-circuit, which sets `error` on a record
with `is_contract = false` and `risk_score = 100`. -/
theorem c4_error_sentinel_amended (outcome : Except String ApiData) (env : ChainEnv) :
    ((checkTokenModel outcome).error ≠ none →
      ∃ m, checkTokenModel outcome = honeypotErrorResponse m) ∧
    ((analyzeTokenModel env).error ≠ none →
      ((∃ m, analyzeTokenModel env = onchainErrorResponse m) ∧
        (analyzeTokenModel env).risk_score = some 50) ∨
      (analyzeTokenModel env = eoaRecord ∧
        (analyzeTokenModel env).is_contract = some false ∧
        (analyzeTokenModel env).risk_score = some 100)) := by
  constructor
  · intro hne
    cases outcome with
    | error msg => exact ⟨msg, rfl⟩
    | ok d => exact absurd rfl hne
  · intro hne
    cases hcfg : env.chainConfigured with
    | false =>
        left
        refine ⟨⟨"Chain " ++ toString env.chainId ++ " not configured", ?_⟩, ?_⟩ <;>
          simp [analyzeTokenModel, hcfg, onchainErrorResponse]
    | true =>
        cases hva : env.validAddress with
        | false =>
            left
            refine ⟨⟨"Invalid Ethereum address format", ?_⟩, ?_⟩ <;>
              simp [analyzeTokenModel, hcfg, hva, onchainErrorResponse]
        | true =>
            cases hgc : env.getCode with
            | error msg =>
                left
                refine ⟨⟨"Analysis failed: " ++ msg, ?_⟩, ?_⟩ <;>
                  simp [analyzeTokenModel, hcfg, hva, hgc, onchainErrorResponse]
            | ok code =>
                by_cases hcs : getCodeSize code > 2
                · exfalso
                  apply hne
                  simp [analyzeTokenModel, hcfg, hva, hgc, Nat.not_le.mpr hcs]
                · right
                  refine ⟨?_, ?_, ?_⟩ <;>
                    simp [analyzeTokenModel, hcfg, hva, hgc, Nat.not_lt.mp hcs, eoaRecord]

/-- Witness for the amended C4 at a failed reputation fetch and the
empty-bytecode environment. -/
theorem c4_error_sentinel_amended_witness :
    (∃ m, checkTokenModel (Except.error "Network timeout") = honeypotErrorResponse m) ∧
    (((∃ m, analyzeTokenModel eoaEnv = onchainErrorResponse m) ∧
        (analyzeTokenModel eoaEnv).risk_score = some 50) ∨
      (analyzeTokenModel eoaEnv = eoaRecord ∧
        (analyzeTokenModel eoaEnv).is_contract = some false ∧
        (analyzeTokenModel eoaEnv).risk_score = some 100)) :=
  ⟨(c4_error_sentinel_amended (Except.error "Network timeout") eoaEnv).1
      (by
        intro hcontra
        rw [show (checkTokenModel (Except.error "Network timeout")).error =
            some "Network timeout" from rfl] at hcontra
        exact Option.noConfusion hcontra),
   (c4_error_sentinel_amended (Except.error "Network timeout") eoaEnv).2
      (by
        intro hcontra
        rw [show (analyzeTokenModel eoaEnv).error =
            some "Address is not a smart contract" from rfl] at hcontra
        exact Option.noConfusion hcontra)⟩

/-- Counterexample for C5: the chain-source normalizer called directly
with an unregistered chain id answers with the ordinary `risk_score=50`
failure sentinel, not a distinct hard error. -/
theorem c5_unsupported_chain_counterexample :
    analyzeTokenModel chain999Env = onchainErrorResponse "Chain 999 not configured" ∧
    (analyzeTokenModel chain999Env).risk_score = some 50 ∧
    (analyzeTokenModel chain999Env).error ≠ none := by
  refine ⟨rfl, rfl, ?_⟩
  simp [analyzeTokenModel, chain999Env, onchainErrorResponse]

/-- Claim C5 as amended: the request surface rejects an unsupported chain
id as a structured error, independent of (hence before) the fetcher
results; the chain-source normalizer itself answers such a call with the
ordinary `risk_score = 50` failure sentinel. -/
theorem c5_unsupported_chain_amended (supported : List ℕ) (chainId : ℕ)
    (h h' : HoneypotData) (o o' : OnchainData) (env : ChainEnv)
    (hns : chainId ∉ supported) (henv : env.chainConfigured = false) :
    handleAnalyze supported chainId h o = .unsupportedChain chainId supported ∧
    handleAnalyze supported chainId h o = handleAnalyze supported chainId h' o' ∧
    analyzeTokenModel env =
      onchainErrorResponse ("Chain " ++ toString env.chainId ++ " not configured") ∧
    (analyzeTokenModel env).risk_score = some 50 := by
  refine ⟨?_, ?_, ?_, ?_⟩
  · simp [handleAnalyze, hns]
  · simp [handleAnalyze, hns]
  · simp [analyzeTokenModel, henv]
  · simp [analyzeTokenModel, henv, onchainErrorResponse]

/-- Witness for the amended C5 at chain id 999 against the seven
registered chains. -/
theorem c5_unsupported_chain_amended_witness :
    handleAnalyze [1, 56, 137, 42161, 10, 8453, 43114] 999
        (honeypotErrorResponse "a") (onchainErrorResponse "b") =
      .unsupportedChain 999 [1, 56, 137, 42161, 10, 8453, 43114] ∧
    handleAnalyze [1, 56, 137, 42161, 10, 8453, 43114] 999
        (honeypotErrorResponse "a") (onchainErrorResponse "b") =
      handleAnalyze [1, 56, 137, 42161, 10, 8453, 43114] 999
        honeypotPositiveRecord (onchainErrorResponse "c") ∧
    analyzeTokenModel chain999Env =
      onchainErrorResponse ("Chain " ++ toString chain999Env.chainId ++ " not configured") ∧
    (analyzeTokenModel chain999Env).risk_score = some 50 :=
  c5_unsupported_chain_amended [1, 56, 137, 42161, 10, 8453, 43114] 999
    (honeypotErrorResponse "a") honeypotPositiveRecord
    (onchainErrorResponse "b") (onchainErrorResponse "c") chain999Env
    (by decide) rfl

end TokenSafety
